import Mathlib

/-!
Shallow embedding of the CupidGPT bot core (src/src/*.py) and verification of
the specification's claims about it.

Modelling conventions:
* SQLite state is an explicit `DBState` record of typed rows; `AUTOINCREMENT`
  primary keys are modelled by explicit `next_*` counters.
* Date-times are `Nat` (minutes on an abstract absolute time line); `NULL`
  columns are `Option`; Python truthiness of an integer id is `id ≠ 0` where
  the source tests it with `if <id>:`.
* Every fallible operation returns its Python value (`Bool`, `Option`, or a
  result record) together with the post state.
* `created_at` timestamp columns are omitted: no modelled operation reads them.
-/

/-- Row of the `users` table (database.py, `init_database`). -/
structure User where
  id : Nat
  telegram_id : Nat
  username : Option String
  first_name : Option String
  last_name : Option String
  paired_user_id : Option Nat
deriving DecidableEq

/-- Row of the `appointments` table (database.py, `init_database`). -/
structure Appointment where
  id : Nat
  title : String
  description : String
  appointment_date : Nat
  location : String
  created_by : Nat
  shared_with : Option Nat
  reminder_sent : Bool
deriving DecidableEq

/-- Row of the `checklists` table (database.py, `init_database`). -/
structure Checklist where
  id : Nat
  title : String
  description : String
  created_by : Nat
  shared_with : Option Nat
deriving DecidableEq

/-- Row of the `checklist_items` table (database.py, `init_database`). -/
structure ChecklistItem where
  id : Nat
  checklist_id : Nat
  text : String
  completed : Bool
  completed_by : Option Nat
  completed_at : Option Nat
deriving DecidableEq

/-- The whole SQLite database, plus the `AUTOINCREMENT` counters. -/
structure DBState where
  users : List User
  appointments : List Appointment
  checklists : List Checklist
  checklist_items : List ChecklistItem
  next_appointment_id : Nat
  next_checklist_id : Nat
  next_item_id : Nat
deriving DecidableEq

/-- Result record `{'success': ..., 'message': ...}` returned by the manager
methods (appointment_manager.py, checklist_manager.py, user_manager.py). -/
structure MResult where
  success : Bool
  message : String
deriving DecidableEq

/-- Well-formedness of a database: primary keys `users.id` and the UNIQUE
column `users.telegram_id` hold pairwise distinct values, as the schema's
`PRIMARY KEY` and `UNIQUE NOT NULL` constraints guarantee. -/
def WF (st : DBState) : Prop :=
  (st.users.map (fun u => u.id)).Nodup ∧ (st.users.map (fun u => u.telegram_id)).Nodup

instance (st : DBState) : Decidable (WF st) := by
  unfold WF; infer_instance

namespace DatabaseManager

/-- database.py, `get_user_by_telegram_id`:
`SELECT * FROM users WHERE telegram_id = ?` + `fetchone`. -/
def get_user_by_telegram_id (st : DBState) (telegram_id : Nat) : Option User :=
  st.users.find? (fun u => u.telegram_id == telegram_id)

/-- The effect of `UPDATE users SET paired_user_id = ? WHERE id = ?`. -/
def setPaired (l : List User) (uid : Nat) (v : Option Nat) : List User :=
  l.map (fun u => if u.id = uid then { u with paired_user_id := v } else u)

/-- database.py, `pair_users`: looks up both internal ids by telegram id and,
when both rows exist, sets the two `paired_user_id` references (no check that
either user is currently unpaired). -/
def pair_users (st : DBState) (user1_telegram_id user2_telegram_id : Nat) :
    Bool × DBState :=
  match get_user_by_telegram_id st user1_telegram_id,
        get_user_by_telegram_id st user2_telegram_id with
  | some u1, some u2 =>
      (true, { st with users := setPaired (setPaired st.users u1.id (some u2.id)) u2.id (some u1.id) })
  | _, _ => (false, st)

/-- database.py, `get_paired_user`:
`SELECT u2.* FROM users u1 JOIN users u2 ON u1.paired_user_id = u2.id WHERE u1.telegram_id = ?`. -/
def get_paired_user (st : DBState) (telegram_id : Nat) : Option User :=
  match get_user_by_telegram_id st telegram_id with
  | none => none
  | some u1 =>
      match u1.paired_user_id with
      | none => none
      | some pid => st.users.find? (fun u2 => u2.id == pid)

/-- database.py, `create_appointment`: resolves the creator's internal id and
current `paired_user_id` in one query and snapshots the latter into
`shared_with`; returns `None` when the creator is unknown. -/
def create_appointment (st : DBState) (title description : String)
    (appointment_date : Nat) (location : String) (created_by_telegram_id : Nat) :
    Option Nat × DBState :=
  match get_user_by_telegram_id st created_by_telegram_id with
  | none => (none, st)
  | some u =>
      let aid := st.next_appointment_id
      (some aid,
       { st with
          appointments := st.appointments ++
            [{ id := aid, title := title, description := description,
               appointment_date := appointment_date, location := location,
               created_by := u.id, shared_with := u.paired_user_id,
               reminder_sent := false }],
          next_appointment_id := aid + 1 })

/-- database.py, `create_checklist`: same creator/partner snapshot as
`create_appointment`. -/
def create_checklist (st : DBState) (title description : String)
    (created_by_telegram_id : Nat) : Option Nat × DBState :=
  match get_user_by_telegram_id st created_by_telegram_id with
  | none => (none, st)
  | some u =>
      let cid := st.next_checklist_id
      (some cid,
       { st with
          checklists := st.checklists ++
            [{ id := cid, title := title, description := description,
               created_by := u.id, shared_with := u.paired_user_id }],
          next_checklist_id := cid + 1 })

/-- database.py, `add_checklist_item`: plain INSERT with schema defaults
`completed = FALSE`, `completed_by = NULL`, `completed_at = NULL`; always
returns `True` absent a storage error (sqlite3 does not enforce the foreign
key because `PRAGMA foreign_keys` is never enabled). -/
def add_checklist_item (st : DBState) (checklist_id : Nat) (text : String) :
    Bool × DBState :=
  (true,
   { st with
      checklist_items := st.checklist_items ++
        [{ id := st.next_item_id, checklist_id := checklist_id, text := text,
           completed := false, completed_by := none, completed_at := none }],
      next_item_id := st.next_item_id + 1 })

/-- database.py, `toggle_checklist_item`: resolves the actor, reads the item's
current `completed` flag, and flips it; completing writes `completed_by` and
`completed_at = CURRENT_TIMESTAMP` together, un-completing NULLs them both. -/
def toggle_checklist_item (st : DBState) (item_id telegram_id : Nat) (now : Nat) :
    Bool × DBState :=
  match get_user_by_telegram_id st telegram_id with
  | none => (false, st)
  | some u =>
      match st.checklist_items.find? (fun it => it.id == item_id) with
      | none => (false, st)
      | some it =>
          let new_status := !it.completed
          (true,
           { st with
              checklist_items := st.checklist_items.map (fun j =>
                if j.id = item_id then
                  if new_status then
                    { j with completed := true, completed_by := some u.id,
                             completed_at := some now }
                  else
                    { j with completed := false, completed_by := none,
                             completed_at := none }
                else j) })

end DatabaseManager

/-- The parsed JSON object an appointment extraction produces
(llm_client.py, `extract_appointment_details`), after the date/time fields have
been combined into `appointment_datetime`.  The network call and JSON parse are
external; the managers only consume this record. -/
structure AppointmentExtraction where
  success : Bool
  error : Option String
  title : String
  description : String
  appointment_datetime : Nat
  location : String
  duration_minutes : Nat
deriving DecidableEq

/-- The parsed JSON object a checklist extraction produces
(llm_client.py, `extract_checklist_details`). -/
structure ChecklistExtraction where
  success : Bool
  error : Option String
  title : String
  description : String
  items : List String
deriving DecidableEq

/-- Python `str.strip()` with no argument: remove leading and trailing
whitespace.  (Modelled structurally on the character list so that concrete
instances compute; `String.trim` does the same job but is defined by
well-founded recursion on byte positions.) -/
def pyStrip (s : String) : String :=
  String.mk (((s.data.dropWhile Char.isWhitespace).reverse.dropWhile
    Char.isWhitespace).reverse)

namespace LLMClient

/-- Python `item.strip().rstrip('.,;:')` from `extract_checklist_details`:
trim surrounding whitespace, then drop every trailing character in the set
`. , ; :`. -/
def cleanItem (s : String) : String :=
  String.mk (((pyStrip s).data.reverse.dropWhile
    (fun c => c == '.' || c == ',' || c == ';' || c == ':')).reverse)

/-- The item-cleanup loop of `extract_checklist_details`: clean each raw item
and keep only the ones that are non-empty afterwards. -/
def cleanItems (items : List String) : List String :=
  (items.map cleanItem).filter (fun s => !s.isEmpty)

/-- llm_client.py, `extract_checklist_details`, post-validation of the parsed
model response (lines 190-204): when the response has `success = true`, an
empty raw `items` list flips `success` to `false` with error
"No checklist items found"; otherwise each item is cleaned and empty leftovers
are dropped.  Note the emptiness test runs on the RAW list, before cleanup. -/
def extract_checklist_details (r : ChecklistExtraction) : ChecklistExtraction :=
  if r.success then
    if r.items.isEmpty then
      { r with success := false, error := some "No checklist items found" }
    else
      { r with items := cleanItems r.items }
  else r

end LLMClient

namespace AppointmentManager

/-- appointment_manager.py, `get_appointment_by_id`: the body calls
`self.db.get_appointment_by_id(appointment_id)`, but `DatabaseManager`
(database.py) defines no method of that name, so the call raises
`AttributeError`; the `except Exception` handler of this very method catches
it and returns `None` — for every id. -/
def get_appointment_by_id (_st : DBState) (_appointment_id : Nat) :
    Option Appointment :=
  none

/-- appointment_manager.py, `create_appointment_from_text`, from the point the
extraction result is available.  Rejects a strictly past date-time, then
persists; `if appointment_id:` is Python integer truthiness. -/
def create_appointment_from_text (st : DBState)
    (details : AppointmentExtraction) (user_telegram_id : Nat) (now : Nat) :
    MResult × DBState :=
  if !details.success then
    (⟨false, details.error.getD "Failed to understand appointment details"⟩, st)
  else if details.appointment_datetime < now then
    (⟨false, "Cannot create appointments in the past"⟩, st)
  else
    match DatabaseManager.create_appointment st details.title
        details.description details.appointment_datetime details.location
        user_telegram_id with
    | (some aid, st') =>
        if aid ≠ 0 then (⟨true, "Appointment created successfully"⟩, st')
        else (⟨false, "Failed to save appointment to database"⟩, st')
    | (none, st') => (⟨false, "Failed to save appointment to database"⟩, st')

/-- appointment_manager.py, `create_appointment_manual`: same validation as
the from-text path, without extraction. -/
def create_appointment_manual (st : DBState) (title description : String)
    (appointment_date : Nat) (location : String) (user_telegram_id : Nat)
    (now : Nat) : MResult × DBState :=
  if appointment_date < now then
    (⟨false, "Cannot create appointments in the past"⟩, st)
  else
    match DatabaseManager.create_appointment st title description
        appointment_date location user_telegram_id with
    | (some aid, st') =>
        if aid ≠ 0 then (⟨true, "Appointment created successfully"⟩, st')
        else (⟨false, "Failed to save appointment to database"⟩, st')
    | (none, st') => (⟨false, "Failed to save appointment to database"⟩, st')

/-- appointment_manager.py, `update_appointment`.  The first step,
`get_appointment_by_id`, always yields `None` (see above), so control always
takes the "Appointment not found" branch; the remaining branches transcribe
the source for completeness: were an appointment ever found, the final
`self.db.update_appointment(...)` call would itself raise `AttributeError`
(`DatabaseManager` has no such method), caught at this method's boundary. -/
def update_appointment (st : DBState) (appointment_id user_telegram_id : Nat)
    (updates : List (String × String)) : MResult × DBState :=
  match get_appointment_by_id st appointment_id with
  | none => (⟨false, "Appointment not found"⟩, st)
  | some apt =>
      match DatabaseManager.get_user_by_telegram_id st user_telegram_id with
      | none => (⟨false, "User not found"⟩, st)
      | some user =>
          if apt.created_by ≠ user.id ∧ apt.shared_with ≠ some user.id then
            (⟨false, "You do not have permission to update this appointment"⟩, st)
          else
            let update_fields := updates.filter (fun u =>
              u.1 == "title" || u.1 == "description" ||
              u.1 == "appointment_date" || u.1 == "location")
            if update_fields.isEmpty then
              (⟨false, "No valid fields to update"⟩, st)
            else
              (⟨false, "An error occurred while updating the appointment"⟩, st)

/-- appointment_manager.py, `delete_appointment`.  As with updates, the
`get_appointment_by_id` step always yields `None`; the later
`self.db.delete_appointment(...)` call would raise `AttributeError`. -/
def delete_appointment (st : DBState) (appointment_id user_telegram_id : Nat) :
    MResult × DBState :=
  match get_appointment_by_id st appointment_id with
  | none => (⟨false, "Appointment not found"⟩, st)
  | some apt =>
      match DatabaseManager.get_user_by_telegram_id st user_telegram_id with
      | none => (⟨false, "User not found"⟩, st)
      | some user =>
          if apt.created_by ≠ user.id then
            (⟨false, "Only the creator can delete an appointment"⟩, st)
          else
            (⟨false, "An error occurred while deleting the appointment"⟩, st)

/-- The in-memory overlap test of `get_conflicting_appointments`
(appointment_manager.py line 352): an existing appointment starting at
`apt_start`, assumed 60 minutes long, conflicts with the candidate window
`[when, when + duration)` iff `apt_start < when + duration` and
`apt_start + 60 > when`. -/
def conflictOverlap (apt_start when duration : Nat) : Bool :=
  apt_start < when + duration && apt_start + 60 > when

/-- appointment_manager.py, `get_conflicting_appointments`: after the actor
lookup, the very first fetch `self.db.get_appointments_in_range(...)`
(line 319) raises `AttributeError` — `DatabaseManager` defines no
`get_appointments_in_range` — and the method's `except Exception` handler
returns `[]`.  The overlap filter (`conflictOverlap`) is therefore dead code:
the method returns `[]` on every input. -/
def get_conflicting_appointments (st : DBState) (user_telegram_id : Nat)
    (_appointment_date _duration_minutes : Nat) : List Appointment :=
  match DatabaseManager.get_user_by_telegram_id st user_telegram_id with
  | none => []
  | some _ => []

end AppointmentManager

namespace ChecklistManager

/-- checklist_manager.py, `get_checklist_by_id`:
`SELECT c.*, u.first_name FROM checklists c JOIN users u ON c.created_by = u.id WHERE c.id = ?`
— the inner join drops the row when the creator user is missing. -/
def get_checklist_by_id (st : DBState) (checklist_id : Nat) : Option Checklist :=
  match st.checklists.find? (fun c => c.id == checklist_id) with
  | none => none
  | some c =>
      match st.users.find? (fun u => u.id == c.created_by) with
      | none => none
      | some _ => some c

/-- checklist_manager.py, `toggle_item`: delegates straight to
`DatabaseManager.toggle_checklist_item` with no permission check of its own
(the `except` wrapper is only reached on a raised exception, and the
repository call returns normally). -/
def toggle_item (st : DBState) (item_id user_telegram_id : Nat) (now : Nat) :
    Bool × DBState :=
  DatabaseManager.toggle_checklist_item st item_id user_telegram_id now

/-- checklist_manager.py, `add_item_to_checklist`: checklist lookup, actor
lookup, creator-or-shared-with permission check, then the (always succeeding)
item INSERT of the stripped text. -/
def add_item_to_checklist (st : DBState) (checklist_id : Nat)
    (item_text : String) (user_telegram_id : Nat) : MResult × DBState :=
  match get_checklist_by_id st checklist_id with
  | none => (⟨false, "Checklist not found"⟩, st)
  | some checklist =>
      match DatabaseManager.get_user_by_telegram_id st user_telegram_id with
      | none => (⟨false, "User not found"⟩, st)
      | some user =>
          if checklist.created_by ≠ user.id ∧ checklist.shared_with ≠ some user.id then
            (⟨false, "You do not have permission to modify this checklist"⟩, st)
          else
            match DatabaseManager.add_checklist_item st checklist_id (pyStrip item_text) with
            | (true, st') => (⟨true, "Item added successfully"⟩, st')
            | (false, st') => (⟨false, "Failed to add item to checklist"⟩, st')

/-- checklist_manager.py, `remove_item_from_checklist`: resolves the item and
its parent checklist in one joined query, checks creator-or-shared-with, then
`DELETE FROM checklist_items WHERE id = ?`. -/
def remove_item_from_checklist (st : DBState) (item_id user_telegram_id : Nat) :
    MResult × DBState :=
  match st.checklist_items.find? (fun it => it.id == item_id) with
  | none => (⟨false, "Item not found"⟩, st)
  | some it =>
      match st.checklists.find? (fun c => c.id == it.checklist_id) with
      | none => (⟨false, "Item not found"⟩, st)
      | some c =>
          match DatabaseManager.get_user_by_telegram_id st user_telegram_id with
          | none => (⟨false, "User not found"⟩, st)
          | some user =>
              if c.created_by ≠ user.id ∧ c.shared_with ≠ some user.id then
                (⟨false, "You do not have permission to modify this checklist"⟩, st)
              else
                (⟨true, "Item removed successfully"⟩,
                 { st with checklist_items :=
                    st.checklist_items.filter (fun j => !(j.id == item_id)) })

/-- checklist_manager.py, `delete_checklist`: checklist lookup, actor lookup,
creator-only check, then `DELETE FROM checklists WHERE id = ?`.  The source
comment says the items go too "due to CASCADE", but sqlite3 never has
`PRAGMA foreign_keys` enabled here, so `ON DELETE CASCADE` is inert and the
items rows survive. -/
def delete_checklist (st : DBState) (checklist_id user_telegram_id : Nat) :
    MResult × DBState :=
  match get_checklist_by_id st checklist_id with
  | none => (⟨false, "Checklist not found"⟩, st)
  | some checklist =>
      match DatabaseManager.get_user_by_telegram_id st user_telegram_id with
      | none => (⟨false, "User not found"⟩, st)
      | some user =>
          if checklist.created_by ≠ user.id then
            (⟨false, "Only the creator can delete a checklist"⟩, st)
          else
            (⟨true, "Checklist deleted successfully"⟩,
             { st with checklists := st.checklists.filter (fun c => !(c.id == checklist_id)) })

end ChecklistManager

namespace UserManager

/-- user_manager.py, `is_user_paired`. -/
def is_user_paired (st : DBState) (telegram_id : Nat) : Bool :=
  match DatabaseManager.get_user_by_telegram_id st telegram_id with
  | some u => u.paired_user_id.isSome
  | none => false

/-- user_manager.py, `_find_user_by_username`:
`SELECT * FROM users WHERE username = ?` — a NULL username never matches. -/
def find_user_by_username (st : DBState) (username : String) : Option User :=
  st.users.find? (fun u => u.username == some username)

/-- user_manager.py, `pair_users`: the check sequence (1) requester
registered, (2) requester not already paired, (3) partner found by username,
(4) partner not already paired, (5) not self-pairing, then the repository
commit.  In branch (2) Python renders the partner's possibly-`None` display
fields into the message (the dict rows always carry the keys, so `.get`'s
defaults are dead); if the dangling `paired_user_id` makes `get_paired_user`
return `None`, the attribute access raises and the method-boundary handler
returns the generic message. -/
def pair_users (st : DBState) (user1_telegram_id : Nat)
    (partner_username : String) : MResult × DBState :=
  match DatabaseManager.get_user_by_telegram_id st user1_telegram_id with
  | none => (⟨false, "You need to start the bot first with /start"⟩, st)
  | some _ =>
      if is_user_paired st user1_telegram_id then
        match DatabaseManager.get_paired_user st user1_telegram_id with
        | some p =>
            (⟨false, "You are already paired with " ++ p.first_name.getD "None"
              ++ " (@" ++ p.username.getD "None" ++ ")"⟩, st)
        | none => (⟨false, "An error occurred while pairing. Please try again."⟩, st)
      else
        match find_user_by_username st partner_username with
        | none =>
            (⟨false, "User @" ++ partner_username
              ++ " not found. They need to start the bot first with /start"⟩, st)
        | some user2 =>
            if is_user_paired st user2.telegram_id then
              (⟨false, "@" ++ partner_username ++ " is already paired with someone else"⟩, st)
            else if user1_telegram_id = user2.telegram_id then
              (⟨false, "You cannot pair with yourself!"⟩, st)
            else
              match DatabaseManager.pair_users st user1_telegram_id user2.telegram_id with
              | (true, st') =>
                  (⟨true, "Successfully paired with @" ++ partner_username
                    ++ "! You can now create shared appointments and checklists."⟩, st')
              | (false, st') => (⟨false, "Failed to pair users. Please try again."⟩, st')

/-- user_manager.py, `unpair_user`: requires the requester to exist with a
truthy `paired_user_id` (Python `if not user.get('paired_user_id')` also
rejects the — schema-impossible — id 0), then NULLs both users'
`paired_user_id` by internal id. -/
def unpair_user (st : DBState) (telegram_id : Nat) : Bool × DBState :=
  match DatabaseManager.get_user_by_telegram_id st telegram_id with
  | none => (false, st)
  | some u =>
      match u.paired_user_id with
      | none => (false, st)
      | some pid =>
          if pid = 0 then (false, st)
          else
            (true, { st with users :=
              DatabaseManager.setPaired (DatabaseManager.setPaired st.users u.id none) pid none })

end UserManager

/-- The outcome a confirmation callback reports back to the user
(bot.py, `_handle_confirm_callback`). -/
inductive ConfirmOutcome where
  | expired
  | saveFailed
  | created (appointment_id : Nat)
deriving DecidableEq

namespace Bot

/-- bot.py, `_handle_confirm_callback`, `action == 'appointment'`: pops the
pending extraction (stored untouched by `_process_pending_input`, which runs
no date validation) and commits it via `DatabaseManager.create_appointment`
directly — there is no past/future check anywhere on this path. -/
def handle_confirm_appointment (st : DBState)
    (pending : Option AppointmentExtraction) (user_id : Nat) :
    ConfirmOutcome × DBState :=
  match pending with
  | none => (.expired, st)
  | some details =>
      match DatabaseManager.create_appointment st details.title
          details.description details.appointment_datetime details.location
          user_id with
      | (some aid, st') =>
          if aid ≠ 0 then (.created aid, st') else (.saveFailed, st')
      | (none, st') => (.saveFailed, st')

end Bot

/-! Concrete database states and extraction payloads used by counterexamples
and witnesses. -/

/-- A registered user. -/
def alice : User := ⟨1, 100, some "alice", some "Alice", some "A", none⟩

/-- A second registered user. -/
def bob : User := ⟨2, 200, some "bob", some "Bob", some "B", none⟩

/-- A third registered user, unrelated to the others' records. -/
def carol : User := ⟨3, 300, some "carol", some "Carol", some "C", none⟩

/-- Three registered users, nobody paired, empty tables. -/
def baseState : DBState := ⟨[alice, bob, carol], [], [], [], 1, 1, 1⟩

/-- Alice and Bob mutually paired; Carol unpaired. -/
def pairedState : DBState :=
  ⟨[{ alice with paired_user_id := some 2 },
    { bob with paired_user_id := some 1 }, carol], [], [], [], 1, 1, 1⟩

/-- Alice with one stored appointment starting at minute 840 (a 14:00 slot on
the abstract clock). -/
def conflictState : DBState :=
  ⟨[alice], [⟨1, "Standup", "", 840, "Room A", 1, none, false⟩], [], [], 2, 1, 1⟩

/-- A checklist created by Alice, shared with Bob, holding one incomplete
item; Carol is registered but has no access to the checklist. -/
def checklistState : DBState :=
  ⟨[alice, bob, carol], [],
   [⟨1, "Groceries", "", 1, some 2⟩],
   [⟨1, 1, "Milk", false, none, none⟩], 1, 2, 2⟩

/-- The spec's checklist-extraction scenario: raw items
`["Milk", "Bread", " ", "Eggs"]` on a successful model response. -/
def milkExample : ChecklistExtraction :=
  ⟨true, none, "Shopping List", "", ["Milk", "Bread", " ", "Eggs"]⟩

/-- A successful model response whose only raw item is whitespace. -/
def whitespaceExample : ChecklistExtraction :=
  ⟨true, none, "Chores", "", [" "]⟩

/-- A pending appointment extraction whose date-time (minute 200) will be in
the past by the time it is confirmed. -/
def pastPending : AppointmentExtraction :=
  ⟨true, none, "Retro", "", 200, "Office", 60⟩

/-- Erase the `paired_user_id` field of a user row, for frame statements
about which columns an operation may touch. -/
def stripPair (u : User) : User := { u with paired_user_id := none }

/-- The audit-pairing invariant on a checklist item row: the `completed` flag
agrees with the presence of both audit columns. -/
def itemAuditb (it : ChecklistItem) : Bool :=
  (it.completed == it.completed_by.isSome) && (it.completed == it.completed_at.isSome)

/-! Helper lemmas about `List.find?` under row updates and key uniqueness. -/

theorem find?_map_pres {α : Type} (f : α → α) (p : α → Bool) (l : List α)
    (hp : ∀ a, p (f a) = p a) : (l.map f).find? p = (l.find? p).map f := by
  induction l with
  | nil => rfl
  | cons a t ih =>
      simp only [List.map_cons, List.find?_cons, hp a]
      cases h : p a
      · simpa using ih
      · simp

theorem find?_self_of_nodup {α β : Type} [DecidableEq β] (f : α → β)
    {l : List α} (h : (l.map f).Nodup) {b : α} (hb : b ∈ l) :
    l.find? (fun x => f x == f b) = some b := by
  induction l with
  | nil => cases hb
  | cons a t ih =>
      by_cases hab : f a = f b
      · have hamem : a ∈ a :: t := List.mem_cons_self a t
        have : a = b := List.inj_on_of_nodup_map h hamem hb hab
        subst this
        simp [List.find?_cons]
      · have hbt : b ∈ t := by
          cases hb with
          | head => exact absurd rfl hab
          | tail _ h' => exact h'
        have ht : (t.map f).Nodup := by
          rw [List.map_cons] at h
          exact h.of_cons
        rw [List.find?_cons]
        simp only [beq_eq_false_iff_ne.mpr hab]
        exact ih ht hbt

theorem get_user_self {st : DBState} (hwf : WF st) {u : User} (hu : u ∈ st.users) :
    DatabaseManager.get_user_by_telegram_id st u.telegram_id = some u := by
  show st.users.find? (fun x => x.telegram_id == u.telegram_id) = some u
  exact find?_self_of_nodup (fun x : User => x.telegram_id) hwf.2 hu

theorem find?_id_self {st : DBState} (hwf : WF st) {u : User} (hu : u ∈ st.users) :
    st.users.find? (fun v => v.id == u.id) = some u :=
  find?_self_of_nodup (fun x : User => x.id) hwf.1 hu

theorem user_id_inj {st : DBState} (hwf : WF st) {u v : User}
    (hu : u ∈ st.users) (hv : v ∈ st.users) (h : u.id = v.id) : u = v :=
  List.inj_on_of_nodup_map hwf.1 hu hv h

theorem find?_tel_setPaired (l : List User) (uid : Nat) (v : Option Nat) (t : Nat) :
    (DatabaseManager.setPaired l uid v).find? (fun u => u.telegram_id == t) =
      (l.find? (fun u => u.telegram_id == t)).map
        (fun u => if u.id = uid then { u with paired_user_id := v } else u) := by
  apply find?_map_pres
  intro a
  by_cases h : a.id = uid <;> simp [h]

theorem find?_id_setPaired (l : List User) (uid : Nat) (v : Option Nat) (i : Nat) :
    (DatabaseManager.setPaired l uid v).find? (fun u => u.id == i) =
      (l.find? (fun u => u.id == i)).map
        (fun u => if u.id = uid then { u with paired_user_id := v } else u) := by
  apply find?_map_pres
  intro a
  by_cases h : a.id = uid <;> simp [h]

theorem create_appointment_eq (st : DBState) (title desc : String) (d : Nat)
    (loc : String) (tid : Nat) (u : User)
    (hu : DatabaseManager.get_user_by_telegram_id st tid = some u) :
    DatabaseManager.create_appointment st title desc d loc tid =
      (some st.next_appointment_id,
       { st with
          appointments := st.appointments ++
            [⟨st.next_appointment_id, title, desc, d, loc, u.id, u.paired_user_id, false⟩],
          next_appointment_id := st.next_appointment_id + 1 }) := by
  unfold DatabaseManager.create_appointment
  rw [hu]

theorem create_checklist_eq (st : DBState) (title desc : String) (tid : Nat) (u : User)
    (hu : DatabaseManager.get_user_by_telegram_id st tid = some u) :
    DatabaseManager.create_checklist st title desc tid =
      (some st.next_checklist_id,
       { st with
          checklists := st.checklists ++
            [⟨st.next_checklist_id, title, desc, u.id, u.paired_user_id⟩],
          next_checklist_id := st.next_checklist_id + 1 }) := by
  unfold DatabaseManager.create_checklist
  rw [hu]

/-- C3: for every appointment id, actor, and update field set,
`AppointmentManager.update_appointment` and
`AppointmentManager.delete_appointment` return `success = false` and leave the
database untouched, because `DatabaseManager` defines none of
`get_appointment_by_id` / `update_appointment` / `delete_appointment`: the
`AttributeError` from the lookup is caught inside
`AppointmentManager.get_appointment_by_id` (yielding `None`, hence the message
"Appointment not found"), so no update or deletion can ever succeed. -/
theorem appointment_update_delete_never_succeed
    (st : DBState) (appointment_id user_telegram_id : Nat)
    (updates : List (String × String)) :
    AppointmentManager.get_appointment_by_id st appointment_id = none ∧
    AppointmentManager.update_appointment st appointment_id user_telegram_id updates
      = (⟨false, "Appointment not found"⟩, st) ∧
    AppointmentManager.delete_appointment st appointment_id user_telegram_id
      = (⟨false, "Appointment not found"⟩, st) :=
  ⟨rfl, rfl, rfl⟩

/-- C5: the spec's half-open-interval conflict rule is exactly the in-memory
filter `conflictOverlap` the source contains (it classifies the spec scenario
correctly: 14:00 = minute 840 conflicts with [14:30, 15:30) = [870, 930) and
not with [15:00, 16:00) = [900, 960)), but
`AppointmentManager.get_conflicting_appointments` never reaches it: its first
repository call, `db.get_appointments_in_range`, does not exist on
`DatabaseManager`, the `AttributeError` is swallowed, and the method returns
`[]` on every input — so the existing 14:00 appointment is never reported. -/
theorem conflict_detection_unreachable :
    AppointmentManager.get_conflicting_appointments conflictState 100 870 60 = [] ∧
    AppointmentManager.conflictOverlap 840 870 60 = true ∧
    AppointmentManager.conflictOverlap 840 900 60 = false ∧
    (∀ (st : DBState) (tid d dur : Nat),
      AppointmentManager.get_conflicting_appointments st tid d dur = []) := by
  refine ⟨rfl, rfl, rfl, ?_⟩
  intro st tid d dur
  unfold AppointmentManager.get_conflicting_appointments
  cases DatabaseManager.get_user_by_telegram_id st tid <;> rfl

/-- C6: toggle audit pairing.  If every stored checklist item satisfies
`completed == true  iff  completed_by != null  iff  completed_at != null`,
then after any `toggle_checklist_item` call (any actor, any item id) every
item still does, and items freshly inserted by `add_checklist_item` do too:
completing writes the flag and both audit fields together, un-completing
clears all three together.  The last conjunct ties the boolean predicate
`itemAuditb` to the claim's double-iff reading. -/
theorem toggle_audit_pairing (st : DBState)
    (item_id telegram_id now checklist_id : Nat) (text : String)
    (h : ∀ it ∈ st.checklist_items, itemAuditb it = true) :
    (∀ it ∈ (DatabaseManager.toggle_checklist_item st item_id telegram_id now).2.checklist_items,
      itemAuditb it = true) ∧
    (∀ it ∈ (DatabaseManager.add_checklist_item st checklist_id text).2.checklist_items,
      itemAuditb it = true) ∧
    (∀ it : ChecklistItem, itemAuditb it = true ↔
      ((it.completed = true ↔ it.completed_by ≠ none) ∧
       (it.completed = true ↔ it.completed_at ≠ none))) := by
  refine ⟨?_, ?_, ?_⟩
  · unfold DatabaseManager.toggle_checklist_item
    cases hu : DatabaseManager.get_user_by_telegram_id st telegram_id with
    | none => exact h
    | some u =>
        cases hit : st.checklist_items.find? (fun it => it.id == item_id) with
        | none => exact h
        | some it =>
            intro j hj
            simp only at hj
            rcases List.mem_map.mp hj with ⟨k, hk, rfl⟩
            by_cases hkid : k.id = item_id
            · by_cases hc : it.completed <;> simp [hkid, hc, itemAuditb]
            · simp only [if_neg hkid]
              exact h k hk
  · intro j hj
    simp only [DatabaseManager.add_checklist_item] at hj
    rcases List.mem_append.mp hj with hk | hk
    · exact h j hk
    · rcases List.mem_singleton.mp hk with rfl
      rfl
  · intro it
    unfold itemAuditb
    cases hc : it.completed <;> cases hb : it.completed_by <;>
      cases ha : it.completed_at <;> simp

/-- C6 witness: the invariant instance on a concrete store (Carol — neither
creator nor shared-with — toggles the item at minute 555). -/
theorem toggle_audit_pairing_witness :
    (∀ it ∈ (DatabaseManager.toggle_checklist_item checklistState 1 300 555).2.checklist_items,
      itemAuditb it = true) ∧
    (∀ it ∈ (DatabaseManager.add_checklist_item checklistState 1 "Eggs").2.checklist_items,
      itemAuditb it = true) ∧
    (∀ it : ChecklistItem, itemAuditb it = true ↔
      ((it.completed = true ↔ it.completed_by ≠ none) ∧
       (it.completed = true ↔ it.completed_at ≠ none))) :=
  toggle_audit_pairing checklistState 1 300 555 1 "Eggs" (by decide)

/-- C9: `ChecklistManager.toggle_item` delegates to the repository toggle with
no access check, and the repository toggle succeeds whenever the actor
resolves to a user and the item exists — whoever the actor is relative to the
checklist.  The successful toggle flips the item's completion state and, when
completing, records the (possibly unrelated) actor as `completed_by`. -/
theorem toggle_item_no_access_check (st : DBState)
    (item_id telegram_id now : Nat) (u : User) (it : ChecklistItem)
    (hu : DatabaseManager.get_user_by_telegram_id st telegram_id = some u)
    (hit : st.checklist_items.find? (fun j => j.id == item_id) = some it) :
    (ChecklistManager.toggle_item st item_id telegram_id now).1 = true ∧
    (ChecklistManager.toggle_item st item_id telegram_id now).2.checklist_items.find?
        (fun j => j.id == item_id) =
      some (if it.completed then
              { it with completed := false, completed_by := none, completed_at := none }
            else
              { it with completed := true, completed_by := some u.id,
                        completed_at := some now }) := by
  have hid : it.id = item_id := by
    have := List.find?_some hit
    simpa using this
  unfold ChecklistManager.toggle_item DatabaseManager.toggle_checklist_item
  rw [hu, hit]
  refine ⟨rfl, ?_⟩
  rw [find?_map_pres _ _ _ (by
    intro a
    by_cases h : a.id = item_id
    · by_cases hc : it.completed <;> simp [h, hc]
    · simp [h])]
  rw [hit]
  by_cases hc : it.completed <;> simp [hid, hc]

/-- C9 witness: Carol, a registered user with no relation to the checklist
(created by Alice, shared with Bob), successfully toggles its item and is
recorded as the completer. -/
theorem toggle_item_no_access_check_witness :
    (ChecklistManager.toggle_item checklistState 1 300 555).1 = true ∧
    (ChecklistManager.toggle_item checklistState 1 300 555).2.checklist_items.find?
        (fun j => j.id == 1) =
      some (if (⟨1, 1, "Milk", false, none, none⟩ : ChecklistItem).completed then
              { (⟨1, 1, "Milk", false, none, none⟩ : ChecklistItem) with
                  completed := false, completed_by := none, completed_at := none }
            else
              { (⟨1, 1, "Milk", false, none, none⟩ : ChecklistItem) with
                  completed := true, completed_by := some carol.id,
                  completed_at := some 555 }) :=
  toggle_item_no_access_check checklistState 1 300 555 carol
    ⟨1, 1, "Milk", false, none, none⟩ (by decide) (by decide)

/-- C8 counterexample: a successful model response whose single raw item is
whitespace.  The raw list is non-empty, so the pre-cleanup emptiness check
passes; cleanup then drops the item, leaving `items = []` while `success`
stays `true` — the claim says this case must yield `success = false`. -/
theorem allwhitespace_items_keep_success_cex :
    (LLMClient.extract_checklist_details whitespaceExample).success = true ∧
    (LLMClient.extract_checklist_details whitespaceExample).items = [] := by
  constructor <;> rfl

/-- C8 as amended: `extract_checklist_details` trims each item, strips
trailing punctuation, and drops items that are empty after cleanup, but it
tests emptiness only on the RAW item list, before the cleanup: a successful
response fails (error "No checklist items found") exactly when the raw list
is empty, while a response whose items are all dropped during cleanup keeps
`success = true` with an empty `items` list.  On raw items
`["Milk", "Bread", " ", "Eggs"]` the result is `["Milk", "Bread", "Eggs"]`
with `success = true`, as the claim's example states. -/
theorem checklist_extraction_cleanup_amended (r : ChecklistExtraction)
    (hs : r.success = true) :
    (r.items = [] → LLMClient.extract_checklist_details r
      = { r with success := false, error := some "No checklist items found" }) ∧
    (r.items ≠ [] → LLMClient.extract_checklist_details r
      = { r with items := LLMClient.cleanItems r.items }) ∧
    LLMClient.extract_checklist_details milkExample
      = { milkExample with items := ["Milk", "Bread", "Eggs"] } := by
  refine ⟨?_, ?_, ?_⟩
  · intro he
    unfold LLMClient.extract_checklist_details
    simp [hs, he]
  · intro hne
    unfold LLMClient.extract_checklist_details
    simp [hs, List.isEmpty_iff, hne]
  · rfl

/-- C8 witness: the amended statement instantiated at the spec's
`["Milk", "Bread", " ", "Eggs"]` scenario. -/
theorem checklist_extraction_cleanup_witness :
    LLMClient.extract_checklist_details milkExample
      = { milkExample with items := ["Milk", "Bread", "Eggs"] } :=
  (checklist_extraction_cleanup_amended milkExample rfl).2.2

/-- C1 counterexample: with the clock at minute 500, a manual creation
request for minute 500 — a date-time EQUAL to the current time — succeeds and
stores the appointment, because the source guard is the strict
`appointment_date < datetime.now()`.  The claim requires this request to fail
with "Cannot create appointments in the past" and store nothing. -/
theorem create_at_now_succeeds_cex :
    (AppointmentManager.create_appointment_manual baseState "Sync" "" 500 "Office" 100 500).1
      = ⟨true, "Appointment created successfully"⟩ ∧
    (AppointmentManager.create_appointment_manual baseState "Sync" "" 500 "Office" 100 500).2.appointments
      = [⟨1, "Sync", "", 500, "Office", 1, none, false⟩] := by
  constructor <;> rfl

/-- C1 as amended: `create_appointment_from_text` and
`create_appointment_manual` reject a request with
"Cannot create appointments in the past", storing nothing, exactly when the
requested date-time is STRICTLY earlier than the clock reading at the check;
a request at or after the current time (equality included) is stored with the
requested date-time, so `stored.when ≥ createdAt` rather than `>`; and the
confirmation-commit path of `_handle_confirm_callback` applies no time
validation at all — it stores whatever pending extraction is present, past
date-times included. -/
theorem creation_time_validation_amended :
    (∀ (st : DBState) (details : AppointmentExtraction) (tid now : Nat),
      details.success = true → details.appointment_datetime < now →
      AppointmentManager.create_appointment_from_text st details tid now
        = (⟨false, "Cannot create appointments in the past"⟩, st)) ∧
    (∀ (st : DBState) (title desc : String) (d : Nat) (loc : String) (tid now : Nat),
      d < now →
      AppointmentManager.create_appointment_manual st title desc d loc tid now
        = (⟨false, "Cannot create appointments in the past"⟩, st)) ∧
    (∀ (st : DBState) (details : AppointmentExtraction) (tid now : Nat) (u : User),
      details.success = true → now ≤ details.appointment_datetime →
      DatabaseManager.get_user_by_telegram_id st tid = some u →
      (AppointmentManager.create_appointment_from_text st details tid now).2.appointments
        = st.appointments ++ [⟨st.next_appointment_id, details.title, details.description,
            details.appointment_datetime, details.location, u.id, u.paired_user_id, false⟩] ∧
      (st.next_appointment_id ≠ 0 →
        (AppointmentManager.create_appointment_from_text st details tid now).1.success = true)) ∧
    (∀ (st : DBState) (title desc : String) (d : Nat) (loc : String) (tid now : Nat) (u : User),
      now ≤ d →
      DatabaseManager.get_user_by_telegram_id st tid = some u →
      (AppointmentManager.create_appointment_manual st title desc d loc tid now).2.appointments
        = st.appointments ++ [⟨st.next_appointment_id, title, desc, d, loc, u.id, u.paired_user_id, false⟩] ∧
      (st.next_appointment_id ≠ 0 →
        (AppointmentManager.create_appointment_manual st title desc d loc tid now).1.success = true)) ∧
    (∀ (st : DBState) (details : AppointmentExtraction) (uid : Nat) (u : User),
      DatabaseManager.get_user_by_telegram_id st uid = some u →
      (Bot.handle_confirm_appointment st (some details) uid).2.appointments
        = st.appointments ++ [⟨st.next_appointment_id, details.title, details.description,
            details.appointment_datetime, details.location, u.id, u.paired_user_id, false⟩]) := by
  refine ⟨?_, ?_, ?_, ?_, ?_⟩
  · intro st details tid now hs hlt
    unfold AppointmentManager.create_appointment_from_text
    simp [hs, hlt]
  · intro st title desc d loc tid now hlt
    unfold AppointmentManager.create_appointment_manual
    simp [hlt]
  · intro st details tid now u hs hle hu
    unfold AppointmentManager.create_appointment_from_text
    rw [create_appointment_eq st details.title details.description
      details.appointment_datetime details.location tid u hu]
    simp only [hs, Bool.not_true, Bool.false_eq_true, if_false,
      Nat.not_lt.mpr hle, if_neg (Nat.not_lt.mpr hle)]
    constructor
    · by_cases hz : st.next_appointment_id = 0 <;> simp [hz]
    · intro hz
      simp [hz]
  · intro st title desc d loc tid now u hle hu
    unfold AppointmentManager.create_appointment_manual
    rw [create_appointment_eq st title desc d loc tid u hu]
    simp only [if_neg (Nat.not_lt.mpr hle)]
    constructor
    · by_cases hz : st.next_appointment_id = 0 <;> simp [hz]
    · intro hz
      simp [hz]
  · intro st details uid u hu
    simp only [Bot.handle_confirm_appointment]
    rw [create_appointment_eq st details.title details.description
      details.appointment_datetime details.location uid u hu]
    by_cases hz : st.next_appointment_id = 0 <;> simp [hz]

/-- C1 witness: a strictly past manual request is rejected unchanged, while
confirming the pending extraction dated minute 200 at any later real time
still stores it — the confirm path never consults a clock. -/
theorem creation_time_validation_witness :
    AppointmentManager.create_appointment_manual baseState "Sync" "" 400 "Office" 100 500
      = (⟨false, "Cannot create appointments in the past"⟩, baseState) ∧
    (Bot.handle_confirm_appointment baseState (some pastPending) 100).2.appointments
      = baseState.appointments ++ [⟨1, "Retro", "", 200, "Office", 1, none, false⟩] :=
  ⟨creation_time_validation_amended.2.1 baseState "Sync" "" 400 "Office" 100 500 (by decide),
   creation_time_validation_amended.2.2.2.2 baseState pastPending 100 alice (by decide)⟩

theorem map_strip_setPaired (l : List User) (uid : Nat) (v : Option Nat) :
    (DatabaseManager.setPaired l uid v).map stripPair = l.map stripPair := by
  induction l with
  | nil => rfl
  | cons a t ih =>
      show stripPair (if a.id = uid then { a with paired_user_id := v } else a) ::
          (DatabaseManager.setPaired t uid v).map stripPair
        = stripPair a :: t.map stripPair
      rw [ih]
      by_cases h : a.id = uid <;> simp [h, stripPair]

theorem unpair_frame (st2 : DBState) (tid2 : Nat) :
    (UserManager.unpair_user st2 tid2).2.appointments = st2.appointments ∧
    (UserManager.unpair_user st2 tid2).2.checklists = st2.checklists ∧
    (UserManager.unpair_user st2 tid2).2.checklist_items = st2.checklist_items ∧
    (UserManager.unpair_user st2 tid2).2.users.map stripPair
      = st2.users.map stripPair := by
  unfold UserManager.unpair_user
  split
  · exact ⟨rfl, rfl, rfl, rfl⟩
  · split
    · exact ⟨rfl, rfl, rfl, rfl⟩
    · split
      · exact ⟨rfl, rfl, rfl, rfl⟩
      · exact ⟨rfl, rfl, rfl, by
          rw [map_strip_setPaired, map_strip_setPaired]⟩

/-- C7: sharing snapshot.  Creating an appointment or checklist while the
creator's row carries `paired_user_id = p` stamps `shared_with = p` into the
new record at creation time; `UserManager.unpair_user` (on any state, any
requester) leaves every appointment, checklist, and checklist item exactly as
it was and changes at most the `paired_user_id` column of the user rows — so
records created before an unpair keep their `shared_with` reference. -/
theorem sharing_snapshot (st : DBState) (tid : Nat) (u : User) (p : Nat)
    (title desc : String) (d : Nat) (loc : String)
    (hu : DatabaseManager.get_user_by_telegram_id st tid = some u)
    (hp : u.paired_user_id = some p) :
    (DatabaseManager.create_appointment st title desc d loc tid).2.appointments
      = st.appointments ++ [⟨st.next_appointment_id, title, desc, d, loc, u.id, some p, false⟩] ∧
    (DatabaseManager.create_checklist st title desc tid).2.checklists
      = st.checklists ++ [⟨st.next_checklist_id, title, desc, u.id, some p⟩] ∧
    (∀ (st2 : DBState) (tid2 : Nat),
      (UserManager.unpair_user st2 tid2).2.appointments = st2.appointments ∧
      (UserManager.unpair_user st2 tid2).2.checklists = st2.checklists ∧
      (UserManager.unpair_user st2 tid2).2.checklist_items = st2.checklist_items ∧
      (UserManager.unpair_user st2 tid2).2.users.map stripPair
        = st2.users.map stripPair) := by
  refine ⟨?_, ?_, ?_⟩
  · rw [create_appointment_eq st title desc d loc tid u hu]
    simp [hp]
  · rw [create_checklist_eq st title desc tid u hu]
    simp [hp]
  · intro st2 tid2
    exact unpair_frame st2 tid2

/-- C7 witness: Alice (paired with Bob) creates an appointment and a
checklist; both records carry `shared_with = 2`, and unpairing afterwards is
invisible to all three record tables. -/
theorem sharing_snapshot_witness :
    (DatabaseManager.create_appointment pairedState "Sync" "" 600 "Office" 100).2.appointments
      = pairedState.appointments ++ [⟨1, "Sync", "", 600, "Office", 1, some 2, false⟩] ∧
    (DatabaseManager.create_checklist pairedState "Sync" "" 100).2.checklists
      = pairedState.checklists ++ [⟨1, "Sync", "", 1, some 2⟩] ∧
    (∀ (st2 : DBState) (tid2 : Nat),
      (UserManager.unpair_user st2 tid2).2.appointments = st2.appointments ∧
      (UserManager.unpair_user st2 tid2).2.checklists = st2.checklists ∧
      (UserManager.unpair_user st2 tid2).2.checklist_items = st2.checklist_items ∧
      (UserManager.unpair_user st2 tid2).2.users.map stripPair
        = st2.users.map stripPair) :=
  sharing_snapshot pairedState 100 { alice with paired_user_id := some 2 } 2
    "Sync" "" 600 "Office" (by decide) rfl

/-- C4: permission boundary.  Appointment update/delete fail (state
untouched) for every actor — in particular for a non-creator, non-shared-with
one — since the repository lookups they depend on do not exist; checklist
deletion is creator-only: a non-creator (the snapshotted shared-with user
included) is rejected with the record and its items untouched, and success
implies the actor is the creator; checklist modification
(`add_item_to_checklist`, `remove_item_from_checklist`) rejects an actor who
is neither creator nor the snapshotted shared-with user, leaving the state
unchanged, while the shared-with user may modify. -/
theorem permission_boundary (st : DBState) (checklist_id tid : Nat)
    (c : Checklist) (u : User)
    (hc : ChecklistManager.get_checklist_by_id st checklist_id = some c)
    (hu : DatabaseManager.get_user_by_telegram_id st tid = some u) :
    (∀ (aid : Nat) (updates : List (String × String)),
      (AppointmentManager.update_appointment st aid tid updates).1.success = false ∧
      (AppointmentManager.update_appointment st aid tid updates).2 = st ∧
      (AppointmentManager.delete_appointment st aid tid).1.success = false ∧
      (AppointmentManager.delete_appointment st aid tid).2 = st) ∧
    (u.id ≠ c.created_by →
      ChecklistManager.delete_checklist st checklist_id tid
        = (⟨false, "Only the creator can delete a checklist"⟩, st)) ∧
    ((ChecklistManager.delete_checklist st checklist_id tid).1.success = true →
      u.id = c.created_by) ∧
    (∀ txt : String, u.id ≠ c.created_by → c.shared_with ≠ some u.id →
      ChecklistManager.add_item_to_checklist st checklist_id txt tid
        = (⟨false, "You do not have permission to modify this checklist"⟩, st)) ∧
    (∀ txt : String, c.shared_with = some u.id →
      (ChecklistManager.add_item_to_checklist st checklist_id txt tid).1.success = true) ∧
    (∀ (iid : Nat) (it : ChecklistItem) (c2 : Checklist),
      st.checklist_items.find? (fun j => j.id == iid) = some it →
      st.checklists.find? (fun x => x.id == it.checklist_id) = some c2 →
      u.id ≠ c2.created_by → c2.shared_with ≠ some u.id →
      ChecklistManager.remove_item_from_checklist st iid tid
        = (⟨false, "You do not have permission to modify this checklist"⟩, st)) := by
  refine ⟨?_, ?_, ?_, ?_, ?_, ?_⟩
  · intro aid updates
    exact ⟨rfl, rfl, rfl, rfl⟩
  · intro hne
    simp [ChecklistManager.delete_checklist, hc, hu, Ne.symm hne]
  · intro hs
    by_contra hne
    have h2 : ChecklistManager.delete_checklist st checklist_id tid
        = (⟨false, "Only the creator can delete a checklist"⟩, st) := by
      simp [ChecklistManager.delete_checklist, hc, hu, Ne.symm hne]
    rw [h2] at hs
    simp at hs
  · intro txt hne hnsh
    simp [ChecklistManager.add_item_to_checklist, hc, hu, Ne.symm hne, hnsh]
  · intro txt hsh
    have hcond : ¬(c.created_by ≠ u.id ∧ c.shared_with ≠ some u.id) :=
      fun h => h.2 hsh
    simp [ChecklistManager.add_item_to_checklist, hc, hu, hcond,
      DatabaseManager.add_checklist_item]
  · intro iid it c2 hit hc2 hne hnsh
    simp [ChecklistManager.remove_item_from_checklist, hit, hc2, hu,
      Ne.symm hne, hnsh]

/-- C4 witness: on the concrete store (checklist created by Alice, shared with
Bob), instantiated once for Carol — neither creator nor shared-with — and once
for Bob, the shared-with user. -/
theorem permission_boundary_witness :
    ((∀ (aid : Nat) (updates : List (String × String)),
      (AppointmentManager.update_appointment checklistState aid 300 updates).1.success = false ∧
      (AppointmentManager.update_appointment checklistState aid 300 updates).2 = checklistState ∧
      (AppointmentManager.delete_appointment checklistState aid 300).1.success = false ∧
      (AppointmentManager.delete_appointment checklistState aid 300).2 = checklistState) ∧
    (carol.id ≠ (1 : Nat) →
      ChecklistManager.delete_checklist checklistState 1 300
        = (⟨false, "Only the creator can delete a checklist"⟩, checklistState)) ∧
    ((ChecklistManager.delete_checklist checklistState 1 300).1.success = true →
      carol.id = (1 : Nat)) ∧
    (∀ txt : String, carol.id ≠ (1 : Nat) → (some (2 : Nat)) ≠ some carol.id →
      ChecklistManager.add_item_to_checklist checklistState 1 txt 300
        = (⟨false, "You do not have permission to modify this checklist"⟩, checklistState)) ∧
    (∀ txt : String, (some (2 : Nat)) = some carol.id →
      (ChecklistManager.add_item_to_checklist checklistState 1 txt 300).1.success = true) ∧
    (∀ (iid : Nat) (it : ChecklistItem) (c2 : Checklist),
      checklistState.checklist_items.find? (fun j => j.id == iid) = some it →
      checklistState.checklists.find? (fun x => x.id == it.checklist_id) = some c2 →
      carol.id ≠ c2.created_by → c2.shared_with ≠ some carol.id →
      ChecklistManager.remove_item_from_checklist checklistState iid 300
        = (⟨false, "You do not have permission to modify this checklist"⟩, checklistState))) ∧
    (∀ txt : String, (some (2 : Nat)) = some bob.id →
      (ChecklistManager.add_item_to_checklist checklistState 1 txt 200).1.success = true) :=
  ⟨permission_boundary checklistState 1 300 ⟨1, "Groceries", "", 1, some 2⟩ carol
      (by decide) (by decide),
   (permission_boundary checklistState 1 200 ⟨1, "Groceries", "", 1, some 2⟩ bob
      (by decide) (by decide)).2.2.2.2.1⟩

theorem found_user_facts {st : DBState} {t : Nat} {u : User}
    (h : DatabaseManager.get_user_by_telegram_id st t = some u) :
    u ∈ st.users ∧ u.telegram_id = t :=
  ⟨List.mem_of_find?_eq_some h, by have := List.find?_some h; simpa using this⟩

theorem ids_ne_of_tel_ne {st : DBState} (hwf : WF st) {u v : User}
    (hu : u ∈ st.users) (hv : v ∈ st.users)
    (hne : u.telegram_id ≠ v.telegram_id) : u.id ≠ v.id :=
  fun h => hne (by rw [user_id_inj hwf hu hv h])

theorem db_pair_users_eq (st : DBState) (t1 t2 : Nat) (u1 u2 : User)
    (h1 : DatabaseManager.get_user_by_telegram_id st t1 = some u1)
    (h2 : DatabaseManager.get_user_by_telegram_id st t2 = some u2) :
    DatabaseManager.pair_users st t1 t2 =
      (true, { st with users :=
        (DatabaseManager.setPaired (DatabaseManager.setPaired st.users u1.id (some u2.id))
          u2.id (some u1.id)) }) := by
  unfold DatabaseManager.pair_users
  rw [h1, h2]

/-- C10: the repository-level `DatabaseManager.pair_users` enforces no
exclusivity and does not preserve symmetry: with A and B mutually paired and C
a third existing user, `pair_users(A, C)` still returns `true`, repoints A to
C and C to A, and leaves B's row untouched — B still references A while A now
references C, an asymmetric state.  The at-most-one-partner rule lives only in
the `UserManager.pair_users` wrapper. -/
theorem db_pair_users_no_exclusivity (st : DBState) (a b cc : Nat)
    (uA uB uC : User) (hwf : WF st)
    (ha : DatabaseManager.get_user_by_telegram_id st a = some uA)
    (hb : DatabaseManager.get_user_by_telegram_id st b = some uB)
    (hc : DatabaseManager.get_user_by_telegram_id st cc = some uC)
    (_hab : uA.paired_user_id = some uB.id)
    (hba : uB.paired_user_id = some uA.id)
    (hAB : a ≠ b) (hAC : a ≠ cc) (hBC : b ≠ cc) :
    (DatabaseManager.pair_users st a cc).1 = true ∧
    DatabaseManager.get_user_by_telegram_id (DatabaseManager.pair_users st a cc).2 a
      = some { uA with paired_user_id := some uC.id } ∧
    DatabaseManager.get_user_by_telegram_id (DatabaseManager.pair_users st a cc).2 cc
      = some { uC with paired_user_id := some uA.id } ∧
    DatabaseManager.get_user_by_telegram_id (DatabaseManager.pair_users st a cc).2 b
      = some uB ∧
    uB.paired_user_id = some uA.id ∧ uC.id ≠ uB.id := by
  obtain ⟨hmA, htA⟩ := found_user_facts ha
  obtain ⟨hmB, htB⟩ := found_user_facts hb
  obtain ⟨hmC, htC⟩ := found_user_facts hc
  have hACid : uA.id ≠ uC.id :=
    ids_ne_of_tel_ne hwf hmA hmC (by rw [htA, htC]; exact hAC)
  have hABid : uA.id ≠ uB.id :=
    ids_ne_of_tel_ne hwf hmA hmB (by rw [htA, htB]; exact hAB)
  have hBCid : uB.id ≠ uC.id :=
    ids_ne_of_tel_ne hwf hmB hmC (by rw [htB, htC]; exact hBC)
  rw [db_pair_users_eq st a cc uA uC ha hc]
  refine ⟨rfl, ?_, ?_, ?_, hba, fun h => hBCid h.symm⟩
  · show (DatabaseManager.setPaired (DatabaseManager.setPaired st.users uA.id (some uC.id))
        uC.id (some uA.id)).find? (fun u => u.telegram_id == a)
      = some { uA with paired_user_id := some uC.id }
    rw [find?_tel_setPaired, find?_tel_setPaired,
      show st.users.find? (fun u => u.telegram_id == a) = some uA from ha]
    simp [hACid]
  · show (DatabaseManager.setPaired (DatabaseManager.setPaired st.users uA.id (some uC.id))
        uC.id (some uA.id)).find? (fun u => u.telegram_id == cc)
      = some { uC with paired_user_id := some uA.id }
    rw [find?_tel_setPaired, find?_tel_setPaired,
      show st.users.find? (fun u => u.telegram_id == cc) = some uC from hc]
    simp [Ne.symm hACid]
  · show (DatabaseManager.setPaired (DatabaseManager.setPaired st.users uA.id (some uC.id))
        uC.id (some uA.id)).find? (fun u => u.telegram_id == b)
      = some uB
    rw [find?_tel_setPaired, find?_tel_setPaired,
      show st.users.find? (fun u => u.telegram_id == b) = some uB from hb]
    simp [Ne.symm hABid, hBCid]

/-- C10 witness: Alice (already mutually paired with Bob) is repaired to
Carol at the repository level; the call reports success, Alice and Carol now
reference each other, and Bob still references Alice. -/
theorem db_pair_users_no_exclusivity_witness :
    (DatabaseManager.pair_users pairedState 100 300).1 = true ∧
    DatabaseManager.get_user_by_telegram_id (DatabaseManager.pair_users pairedState 100 300).2 100
      = some ⟨1, 100, some "alice", some "Alice", some "A", some 3⟩ ∧
    DatabaseManager.get_user_by_telegram_id (DatabaseManager.pair_users pairedState 100 300).2 300
      = some ⟨3, 300, some "carol", some "Carol", some "C", some 1⟩ ∧
    DatabaseManager.get_user_by_telegram_id (DatabaseManager.pair_users pairedState 100 300).2 200
      = some ⟨2, 200, some "bob", some "Bob", some "B", some 1⟩ ∧
    (⟨2, 200, some "bob", some "Bob", some "B", some 1⟩ : User).paired_user_id = some 1 ∧
    (3 : Nat) ≠ 2 :=
  db_pair_users_no_exclusivity pairedState 100 200 300
    ⟨1, 100, some "alice", some "Alice", some "A", some 2⟩
    ⟨2, 200, some "bob", some "Bob", some "B", some 1⟩
    ⟨3, 300, some "carol", some "Carol", some "C", none⟩
    (by decide) (by decide) (by decide) (by decide) rfl rfl
    (by decide) (by decide) (by decide)

/-- C2: pairing symmetry and exclusivity at the Pairing Service
(`UserManager.pair_users`).  On a well-formed store: whenever a pairing
request succeeds, the requester A and the user B resolved from the partner
username reference each other — `get_paired_user(A)` returns B's row and
`get_paired_user(B)` returns A's row (each carrying the new mutual
reference); and while A is paired, any request BY A fails and any request
NAMING A (resolving A as partner) fails, in both cases leaving the whole
database — both users' partner references included — unchanged. -/
theorem pairing_symmetry_exclusive (st : DBState) (a : Nat) (uname : String)
    (hwf : WF st) :
    ((UserManager.pair_users st a uname).1.success = true →
      ∃ uA u2, DatabaseManager.get_user_by_telegram_id st a = some uA ∧
        UserManager.find_user_by_username st uname = some u2 ∧
        DatabaseManager.get_paired_user (UserManager.pair_users st a uname).2 a
          = some { u2 with paired_user_id := some uA.id } ∧
        DatabaseManager.get_paired_user (UserManager.pair_users st a uname).2 u2.telegram_id
          = some { uA with paired_user_id := some u2.id }) ∧
    (UserManager.is_user_paired st a = true →
      (UserManager.pair_users st a uname).1.success = false ∧
      (UserManager.pair_users st a uname).2 = st) ∧
    (∀ u2, UserManager.find_user_by_username st uname = some u2 →
      UserManager.is_user_paired st u2.telegram_id = true →
      (UserManager.pair_users st a uname).1.success = false ∧
      (UserManager.pair_users st a uname).2 = st) := by
  cases hu1 : DatabaseManager.get_user_by_telegram_id st a with
  | none =>
      have hre : UserManager.pair_users st a uname
          = (⟨false, "You need to start the bot first with /start"⟩, st) := by
        simp only [UserManager.pair_users, hu1]
      refine ⟨?_, ?_, ?_⟩
      · intro h
        rw [hre] at h
        simp at h
      · intro hp
        unfold UserManager.is_user_paired at hp
        rw [hu1] at hp
        exact absurd hp (by decide)
      · intro u2 _ _
        rw [hre]
        exact ⟨rfl, rfl⟩
  | some u1 =>
      cases hp1 : UserManager.is_user_paired st a with
      | true =>
          have hre : (UserManager.pair_users st a uname).1.success = false ∧
              (UserManager.pair_users st a uname).2 = st := by
            simp only [UserManager.pair_users, hu1, hp1, if_true]
            cases DatabaseManager.get_paired_user st a <;> exact ⟨rfl, rfl⟩
          refine ⟨?_, fun _ => hre, fun u2 _ _ => hre⟩
          intro h
          rw [hre.1] at h
          exact absurd h (by decide)
      | false =>
          cases hu2 : UserManager.find_user_by_username st uname with
          | none =>
              have hre : UserManager.pair_users st a uname
                  = (⟨false, "User @" ++ uname
                      ++ " not found. They need to start the bot first with /start"⟩, st) := by
                simp only [UserManager.pair_users, hu1, hp1, hu2,
                  Bool.false_eq_true, if_false]
              refine ⟨?_, ?_, ?_⟩
              · intro h
                rw [hre] at h
                simp at h
              · intro hp
                exact absurd hp (by decide)
              · intro u2 hfind _
                exact absurd hfind (by simp)
          | some u2 =>
              cases hp2 : UserManager.is_user_paired st u2.telegram_id with
              | true =>
                  have hre : UserManager.pair_users st a uname
                      = (⟨false, "@" ++ uname ++ " is already paired with someone else"⟩, st) := by
                    simp only [UserManager.pair_users, hu1, hp1, hu2, hp2,
                      Bool.false_eq_true, if_false, if_true]
                  refine ⟨?_, ?_, ?_⟩
                  · intro h
                    rw [hre] at h
                    simp at h
                  · intro hp
                    exact absurd hp (by decide)
                  · intro u2' _ _
                    rw [hre]
                    exact ⟨rfl, rfl⟩
              | false =>
                  by_cases hself : a = u2.telegram_id
                  · have hre : UserManager.pair_users st a uname
                        = (⟨false, "You cannot pair with yourself!"⟩, st) := by
                      simp only [UserManager.pair_users, hu1, hp1, hu2, hp2,
                        Bool.false_eq_true, if_false, if_pos hself]
                    refine ⟨?_, ?_, ?_⟩
                    · intro h
                      rw [hre] at h
                      simp at h
                    · intro hp
                      exact absurd hp (by decide)
                    · intro u2' hfind hpaired
                      injection hfind with heq
                      subst heq
                      rw [hp2] at hpaired
                      exact absurd hpaired (by decide)
                  · -- success path
                    obtain ⟨hm1, ht1⟩ := found_user_facts hu1
                    have hm2 : u2 ∈ st.users := List.mem_of_find?_eq_some hu2
                    have hid12 : u1.id ≠ u2.id :=
                      ids_ne_of_tel_ne hwf hm1 hm2 (by rw [ht1]; exact hself)
                    have hg2 : DatabaseManager.get_user_by_telegram_id st u2.telegram_id
                        = some u2 := get_user_self hwf hm2
                    have hre : UserManager.pair_users st a uname
                        = (⟨true, "Successfully paired with @" ++ uname
                            ++ "! You can now create shared appointments and checklists."⟩,
                           { st with users :=
                             (DatabaseManager.setPaired
                               (DatabaseManager.setPaired st.users u1.id (some u2.id))
                               u2.id (some u1.id)) }) := by
                      simp only [UserManager.pair_users, hu1, hp1, hu2, hp2,
                        Bool.false_eq_true, if_false, if_neg hself,
                        db_pair_users_eq st a u2.telegram_id u1 u2 hu1 hg2]
                    refine ⟨?_, ?_, ?_⟩
                    · intro _
                      refine ⟨u1, u2, rfl, rfl, ?_, ?_⟩
                      · rw [hre]
                        have hga : DatabaseManager.get_user_by_telegram_id
                            ({ st with users :=
                              (DatabaseManager.setPaired
                                (DatabaseManager.setPaired st.users u1.id (some u2.id))
                                u2.id (some u1.id)) }) a
                            = some { u1 with paired_user_id := some u2.id } := by
                          show (DatabaseManager.setPaired
                              (DatabaseManager.setPaired st.users u1.id (some u2.id))
                              u2.id (some u1.id)).find? (fun u => u.telegram_id == a)
                            = some { u1 with paired_user_id := some u2.id }
                          rw [find?_tel_setPaired, find?_tel_setPaired,
                            show st.users.find? (fun u => u.telegram_id == a) = some u1 from hu1]
                          simp [hid12]
                        simp only [DatabaseManager.get_paired_user, hga]
                        show (DatabaseManager.setPaired
                            (DatabaseManager.setPaired st.users u1.id (some u2.id))
                            u2.id (some u1.id)).find? (fun v => v.id == u2.id)
                          = some { u2 with paired_user_id := some u1.id }
                        rw [find?_id_setPaired, find?_id_setPaired, find?_id_self hwf hm2]
                        simp [Ne.symm hid12]
                      · rw [hre]
                        have hgc : DatabaseManager.get_user_by_telegram_id
                            ({ st with users :=
                              (DatabaseManager.setPaired
                                (DatabaseManager.setPaired st.users u1.id (some u2.id))
                                u2.id (some u1.id)) }) u2.telegram_id
                            = some { u2 with paired_user_id := some u1.id } := by
                          show (DatabaseManager.setPaired
                              (DatabaseManager.setPaired st.users u1.id (some u2.id))
                              u2.id (some u1.id)).find? (fun u => u.telegram_id == u2.telegram_id)
                            = some { u2 with paired_user_id := some u1.id }
                          rw [find?_tel_setPaired, find?_tel_setPaired,
                            show st.users.find? (fun u => u.telegram_id == u2.telegram_id)
                              = some u2 from hg2]
                          simp [Ne.symm hid12]
                        simp only [DatabaseManager.get_paired_user, hgc]
                        show (DatabaseManager.setPaired
                            (DatabaseManager.setPaired st.users u1.id (some u2.id))
                            u2.id (some u1.id)).find? (fun v => v.id == u1.id)
                          = some { u1 with paired_user_id := some u2.id }
                        rw [find?_id_setPaired, find?_id_setPaired, find?_id_self hwf hm1]
                        simp [hid12]
                    · intro hp
                      exact absurd hp (by decide)
                    · intro u2' hfind hpaired
                      injection hfind with heq
                      subst heq
                      rw [hp2] at hpaired
                      exact absurd hpaired (by decide)

/-- C2 witness: instantiated once on the all-unpaired store (where
`pair(alice, "bob")` succeeds) and once on the store where Alice is already
paired (where the exclusivity conjuncts bite). -/
theorem pairing_symmetry_exclusive_witness :
    (((UserManager.pair_users baseState 100 "bob").1.success = true →
      ∃ uA u2, DatabaseManager.get_user_by_telegram_id baseState 100 = some uA ∧
        UserManager.find_user_by_username baseState "bob" = some u2 ∧
        DatabaseManager.get_paired_user (UserManager.pair_users baseState 100 "bob").2 100
          = some { u2 with paired_user_id := some uA.id } ∧
        DatabaseManager.get_paired_user (UserManager.pair_users baseState 100 "bob").2 u2.telegram_id
          = some { uA with paired_user_id := some u2.id }) ∧
    (UserManager.is_user_paired baseState 100 = true →
      (UserManager.pair_users baseState 100 "bob").1.success = false ∧
      (UserManager.pair_users baseState 100 "bob").2 = baseState) ∧
    (∀ u2, UserManager.find_user_by_username baseState "bob" = some u2 →
      UserManager.is_user_paired baseState u2.telegram_id = true →
      (UserManager.pair_users baseState 100 "bob").1.success = false ∧
      (UserManager.pair_users baseState 100 "bob").2 = baseState)) ∧
    ((UserManager.pair_users pairedState 100 "carol").1.success = true →
      ∃ uA u2, DatabaseManager.get_user_by_telegram_id pairedState 100 = some uA ∧
        UserManager.find_user_by_username pairedState "carol" = some u2 ∧
        DatabaseManager.get_paired_user (UserManager.pair_users pairedState 100 "carol").2 100
          = some { u2 with paired_user_id := some uA.id } ∧
        DatabaseManager.get_paired_user (UserManager.pair_users pairedState 100 "carol").2 u2.telegram_id
          = some { uA with paired_user_id := some u2.id }) ∧
    (UserManager.is_user_paired pairedState 100 = true →
      (UserManager.pair_users pairedState 100 "carol").1.success = false ∧
      (UserManager.pair_users pairedState 100 "carol").2 = pairedState) ∧
    (∀ u2, UserManager.find_user_by_username pairedState "carol" = some u2 →
      UserManager.is_user_paired pairedState u2.telegram_id = true →
      (UserManager.pair_users pairedState 100 "carol").1.success = false ∧
      (UserManager.pair_users pairedState 100 "carol").2 = pairedState) :=
  ⟨pairing_symmetry_exclusive baseState 100 "bob" (by decide),
   pairing_symmetry_exclusive pairedState 100 "carol" (by decide)⟩
